import Mathlib

/-!
Shallow embedding of the web-ds driver-station protocol core
(`src/python/frc_protocol_2020.py`, `src/python/server/http_handler.py`,
`src/python/server/websocket_server.py`, `src/python/server/config.py`).

Machine integers are modelled as `Nat` with explicit masking where the code
masks; wall-clock times and battery voltage are modelled as `ℚ` (the Python
code uses floats only as exact small decimals here: 0.02, 0.15, byte/256).
Python byte strings are `List Nat` (each element < 256 in practice),
Python `str` is Lean `String`.
-/

namespace WebDS

/-- `ControlMode` enum from `frc_protocol_2020.py` (TELEOP = 0x00,
AUTONOMOUS = 0x02, TEST = 0x01). -/
inductive ControlMode where
  | TELEOP
  | AUTONOMOUS
  | TEST
deriving DecidableEq, Repr

/-- Numeric value of each `ControlMode` enum member. -/
def ControlMode.val : ControlMode → Nat
  | .TELEOP => 0x00
  | .AUTONOMOUS => 0x02
  | .TEST => 0x01

/-- Lower-case name of each mode, as produced by `self._mode.name.lower()`. -/
def ControlMode.lowerName : ControlMode → String
  | .TELEOP => "teleop"
  | .AUTONOMOUS => "autonomous"
  | .TEST => "test"

/-- `ControlBits` flag values from `frc_protocol_2020.py`. -/
def ControlBits.ENABLED : Nat := 0x04
def ControlBits.FMS_ATTACHED : Nat := 0x08
def ControlBits.EMERGENCY_STOP : Nat := 0x80

/-- `RequestCode.NORMAL` from `frc_protocol_2020.py`. -/
def RequestCode.NORMAL : Nat := 0x00

/-- `StationCode` enum from `frc_protocol_2020.py`. -/
inductive StationCode where
  | RED1
  | RED2
  | RED3
  | BLUE1
  | BLUE2
  | BLUE3
deriving DecidableEq, Repr

/-- Numeric value of each `StationCode` enum member. -/
def StationCode.val : StationCode → Nat
  | .RED1 => 0x00
  | .RED2 => 0x01
  | .RED3 => 0x02
  | .BLUE1 => 0x03
  | .BLUE2 => 0x04
  | .BLUE3 => 0x05

/-- The `RobotStatus` dataclass: the Observed Status record, mutated only by
the receive path (`_process_robot_response`) and the watchdog
(`_handle_communication_lost`). -/
structure RobotStatus where
  connected : Bool
  enabled : Bool
  mode : ControlMode
  voltage : ℚ
  code_present : Bool
  emergency_stopped : Bool
  cpu_usage : Nat
  ram_usage : Nat
  can_utilization : ℚ
  packet_count : Nat
deriving DecidableEq, Repr

/-- Default-constructed `RobotStatus()` (all dataclass defaults). -/
def initRobotStatus : RobotStatus :=
  { connected := false
    enabled := false
    mode := .TELEOP
    voltage := 0
    code_present := false
    emergency_stopped := false
    cpu_usage := 0
    ram_usage := 0
    can_utilization := 0
    packet_count := 0 }

/-- Protocol constants of `FRCDriverStation` (times in seconds as `ℚ`). -/
def PACKET_INTERVAL : ℚ := 2 / 100
def WATCHDOG_TIMEOUT : ℚ := 15 / 100

/-- The mutable fields of a `FRCDriverStation` instance that the protocol
logic reads or writes: the Control Intent (`_mode`, `_enabled`,
`_emergency_stopped`, `_fms_attached`, `team_number`, `robot_address`,
`_sent_packets`) plus the Observed Status (`status`, `_last_response_time`). -/
structure DSState where
  team_number : Nat
  robot_address : String
  status : RobotStatus
  mode : ControlMode
  enabled : Bool
  emergency_stopped : Bool
  fms_attached : Bool
  sent_packets : Nat
  last_response_time : ℚ
deriving DecidableEq, Repr

/-- The address formula `f"10.{team_number//100}.{team_number%100}.2"` used by
`__init__` and `set_team_number`. -/
def robotAddressFor (team : Nat) : String :=
  "10." ++ toString (team / 100) ++ "." ++ toString (team % 100) ++ ".2"

/-- `FRCDriverStation.__init__(team_number)`. -/
def initState (team : Nat) : DSState :=
  { team_number := team
    robot_address := robotAddressFor team
    status := initRobotStatus
    mode := .TELEOP
    enabled := false
    emergency_stopped := false
    fms_attached := false
    sent_packets := 0
    last_response_time := 0 }

/-- `FRCDriverStation._build_robot_packet`: the 6-byte outbound control
frame. Note that byte 4 is always `RequestCode.NORMAL` and byte 5 is always
`StationCode.RED1` in the source (the station byte is hard-coded; the class
has no station attribute). -/
def build_robot_packet (st : DSState) : List Nat :=
  let control_code :=
    st.mode.val
      ||| (if st.enabled && !st.emergency_stopped then ControlBits.ENABLED else 0)
      ||| (if st.fms_attached then ControlBits.FMS_ATTACHED else 0)
      ||| (if st.emergency_stopped then ControlBits.EMERGENCY_STOP else 0)
  let seq := st.sent_packets &&& 0xFFFF
  [seq / 256, seq % 256, 0x01, control_code, RequestCode.NORMAL, StationCode.RED1.val]

/-- `FRCDriverStation._process_robot_response(data)`: frames shorter than
7 bytes return without mutating anything; otherwise the Observed Status is
overwritten from the frame bytes.  The version byte `data[2]` is read into a
local in the source but never compared against anything, so it does not
appear in the result.  `data[len >= 7]` indexing is modelled with `getD`
(all used indices are in bounds under the length guard). -/
def process_robot_response (st : DSState) (data : List Nat) : DSState :=
  if data.length < 7 then st
  else
    let packet_num := 256 * data.getD 0 0 + data.getD 1 0
    let control_echo := data.getD 3 0
    let robot_status := data.getD 4 0
    let voltage : ℚ := (data.getD 5 0 : ℚ) + (data.getD 6 0 : ℚ) / 256
    let code_present := (robot_status &&& 0x20) != 0
    let emergency_stopped := (control_echo &&& ControlBits.EMERGENCY_STOP) != 0
    { st with
      status :=
        { st.status with
          connected := true
          voltage := voltage
          code_present := code_present
          emergency_stopped := emergency_stopped
          packet_count := packet_num
          enabled := st.enabled
          mode := st.mode } }

/-- `FRCDriverStation._handle_communication_lost`: reset the Observed Status
to disconnected defaults and force the intent `_enabled` to false. -/
def handle_communication_lost (st : DSState) : DSState :=
  { st with
    status :=
      { st.status with
        connected := false
        enabled := false
        voltage := 0
        code_present := false
        emergency_stopped := false }
    enabled := false }

/-- The datagram branch of `FRCDriverStation._recv_loop`: a datagram from the
current `robot_address` is processed and then `_last_response_time` is set to
the current time; datagrams from any other source are dropped. -/
def recv_datagram (st : DSState) (now : ℚ) (src : String) (data : List Nat) :
    DSState :=
  if src = st.robot_address then
    { process_robot_response st data with last_response_time := now }
  else st

/-- The `socket.timeout` branch of `FRCDriverStation._recv_loop`: when more
than `WATCHDOG_TIMEOUT` has elapsed since `_last_response_time` and the
status still says connected, run `_handle_communication_lost`. -/
def recv_timeout (st : DSState) (now : ℚ) : DSState :=
  if now - st.last_response_time > WATCHDOG_TIMEOUT then
    if st.status.connected then handle_communication_lost st else st
  else st

/-- `FRCDriverStation.enable_robot`: the enable command with its
precondition ladder over the Observed Status. Returns the Python `bool`
result together with the successor state. -/
def enable_robot (st : DSState) : Bool × DSState :=
  if !st.status.connected then (false, st)
  else if !st.status.code_present then (false, st)
  else if st.status.emergency_stopped then (false, st)
  else (true, { st with enabled := true })

/-- `FRCDriverStation.disable_robot`. -/
def disable_robot (st : DSState) : Bool × DSState :=
  (true, { st with enabled := false })

/-- `FRCDriverStation.set_teleop_mode`. -/
def set_teleop_mode (st : DSState) : Bool × DSState :=
  (true, { st with mode := .TELEOP })

/-- `FRCDriverStation.set_autonomous_mode`. -/
def set_autonomous_mode (st : DSState) : Bool × DSState :=
  (true, { st with mode := .AUTONOMOUS })

/-- `FRCDriverStation.set_test_mode`. -/
def set_test_mode (st : DSState) : Bool × DSState :=
  (true, { st with mode := .TEST })

/-- `FRCDriverStation.emergency_stop`: sets the intent e-stop latch and
clears the intent enable; it does not touch the Observed Status. -/
def emergency_stop (st : DSState) : Bool × DSState :=
  (true, { st with emergency_stopped := true, enabled := false })

/-- `FRCDriverStation.clear_emergency_stop`. -/
def clear_emergency_stop (st : DSState) : Bool × DSState :=
  (true, { st with emergency_stopped := false })

/-- `FRCDriverStation.set_team_number`: unconditionally stores the team and
recomputes `robot_address`; the source performs no range validation and
always returns `True`. -/
def set_team_number (st : DSState) (team : Nat) : Bool × DSState :=
  (true, { st with team_number := team, robot_address := robotAddressFor team })

/-- `FRCDriverStation.set_robot_address`. -/
def set_robot_address (st : DSState) (address : String) : Bool × DSState :=
  (true, { st with robot_address := address })

/-- The relevant entries of the `get_status()` dictionary. -/
structure StatusDict where
  connected : Bool
  robot_communications : Bool
  enabled : Bool
  robot_enabled : Bool
  mode : String
  voltage : ℚ
  code_present : Bool
  robot_code : Bool
  emergency_stopped : Bool
  can_be_enabled : Bool
  team_number : Nat
  robot_address : String
  packet_count : Nat
deriving DecidableEq, Repr

/-- `FRCDriverStation.get_status`: the snapshot handed to the HTTP façade. -/
def get_status (st : DSState) : StatusDict :=
  { connected := st.status.connected
    robot_communications := st.status.connected
    enabled := st.status.enabled
    robot_enabled := st.status.enabled
    mode := st.mode.lowerName
    voltage := st.status.voltage
    code_present := st.status.code_present
    robot_code := st.status.code_present
    emergency_stopped := st.status.emergency_stopped
    can_be_enabled :=
      st.status.connected && st.status.code_present &&
        !st.status.emergency_stopped
    team_number := st.team_number
    robot_address := st.robot_address
    packet_count := st.status.packet_count }

/-- The command vocabulary of the public control methods. -/
inductive Command where
  | enable
  | disable
  | teleop
  | auto
  | test
  | estop
  | clear_estop
  | set_team (team : Nat)
  | set_address (address : String)
deriving DecidableEq, Repr

/-- Apply one public command to the engine state (discarding the `bool`
result each method returns). -/
def apply_command (st : DSState) : Command → DSState
  | .enable => (enable_robot st).2
  | .disable => (disable_robot st).2
  | .teleop => (set_teleop_mode st).2
  | .auto => (set_autonomous_mode st).2
  | .test => (set_test_mode st).2
  | .estop => (emergency_stop st).2
  | .clear_estop => (clear_emergency_stop st).2
  | .set_team t => (set_team_number st t).2
  | .set_address a => (set_robot_address st a).2

/-- One externally visible event hitting the engine: a command on the
caller's thread, a datagram delivered to `_recv_loop`, or a receive timeout
(watchdog check) in `_recv_loop`. -/
inductive Event where
  | cmd (c : Command)
  | datagram (now : ℚ) (src : String) (data : List Nat)
  | timeout (now : ℚ)
deriving DecidableEq, Repr

/-- Interleaving semantics: apply one event to the state. -/
def step (st : DSState) : Event → DSState
  | .cmd c => apply_command st c
  | .datagram now src data => recv_datagram st now src data
  | .timeout now => recv_timeout st now

/-- Run the engine from the default construction (`team_number = 1234`, as in
`get_driver_station`) over a sequence of events. -/
def run (events : List Event) : DSState :=
  events.foldl step (initState 1234)

/-- Result record of `_execute_action` in `server/http_handler.py`
(restricted to the fields relevant to the enable action). -/
structure ActionResult where
  success : Bool
  error : Option String
deriving DecidableEq, Repr

/-- The `action == 'enable'` branch of
`FRCDriverStationHandler._execute_action`: reads `get_status()` first, calls
`enable_robot()`, and on failure picks the error message by the ladder over
the pre-enable status fields. -/
def execute_enable (st : DSState) : ActionResult × DSState :=
  let current_status := get_status st
  let r := enable_robot st
  if r.1 then ({ success := true, error := none }, r.2)
  else
    let error_msg :=
      if !current_status.robot_communications then "No communication with robot"
      else if !current_status.robot_code then "Robot code not detected"
      else if current_status.emergency_stopped then "Robot is emergency stopped"
      else "Cannot enable robot - check robot code and communications"
    ({ success := false, error := some error_msg }, r.2)

/-- One `_send_robot_packet` call per tick of `_send_loop`: the packet is
built from the current state, `sendto` either succeeds (`ok = true`) or
raises (`ok = false`, the exception is caught); `_sent_packets += 1` runs
only after a `sendto` that did not raise. -/
def send_tick (st : DSState) (ok : Bool) : Option (List Nat) × DSState :=
  let packet := build_robot_packet st
  if ok then (some packet, { st with sent_packets := st.sent_packets + 1 })
  else (none, st)

/-- The frames actually handed to `sendto` without an exception, over a run
of the send loop in which tick `i` succeeds iff `oks[i]`. -/
def transmitted_frames : DSState → List Bool → List (List Nat)
  | _, [] => []
  | st, ok :: rest =>
    if ok then
      build_robot_packet st ::
        transmitted_frames { st with sent_packets := st.sent_packets + 1 } rest
    else transmitted_frames st rest

/-- The sequence field of a frame: bytes 0-1, big-endian. -/
def seq_of (frame : List Nat) : Nat :=
  256 * frame.getD 0 0 + frame.getD 1 0

/-- The scheduling of one `_send_loop` iteration that woke at `now` with
target `next_send_time`: fire iff `now >= next_send_time`, and on firing set
`next_send_time = current_time + PACKET_INTERVAL` (from the actual wake
time). -/
def send_loop_step (next_send_time now : ℚ) : Bool × ℚ :=
  if next_send_time ≤ now then (true, now + PACKET_INTERVAL)
  else (false, next_send_time)

/-- `Config.MAX_LOG_HISTORY` from `server/config.py`. -/
def MAX_LOG_HISTORY : Nat := 500

/-- Python `l[-n:]`: the trailing `n` elements (all of `l` when shorter). -/
def takeLast {α : Type _} (n : Nat) (l : List α) : List α :=
  l.drop (l.length - n)

/-- The whitespace set of Python `str.strip()` (ASCII part: space, tab,
newline, carriage return, vertical tab, form feed). -/
def py_whitespace (c : Char) : Bool :=
  c = ' ' || c = '\t' || c = '\n' || c = '\r' ||
    c = Char.ofNat 11 || c = Char.ofNat 12

/-- Python `str.strip()`. -/
def pyStrip (s : String) : String :=
  String.mk (((s.toList.dropWhile py_whitespace).reverse.dropWhile
    py_whitespace).reverse)

/-- Python `value.split('\\n')` on the character list: split on each
non-overlapping occurrence, scanned left to right, of the two-character
separator backslash-n that the source spells as `'\\n'`; empty pieces are
kept (plain `str.split(sep)` never drops them). -/
def split_backslash_n : List Char → List (List Char)
  | [] => [[]]
  | [c] => [[c]]
  | c1 :: c2 :: rest =>
    if c1 = '\\' && c2 = 'n' then [] :: split_backslash_n rest
    else
      match split_backslash_n (c2 :: rest) with
      | [] => [[c1]]
      | t :: ts => (c1 :: t) :: ts

/-- Python `str(value).split('\\n')` as a `String` operation. -/
def py_split_backslash_n (s : String) : List String :=
  (split_backslash_n s.toList).map String.mk

/-- The `log_listener` closure in `WebSocketServer._subscribe_tables`,
restricted to its effect on the `_log_lines` buffer.  Key `"latest"` appends
`str(value)` and keeps the trailing `MAX_LOG_HISTORY` entries.  Key
`"history"` rebuilds the buffer from
`[line.strip() for line in str(value).split('\\n') if line.strip()]` -
note the Python source splits on the two-character literal backslash-n
(`'\\n'` in the source), not on newline characters - and keeps the trailing
`MAX_LOG_HISTORY` entries.  Any other key leaves the buffer unchanged. -/
def log_listener (lines : List String) (key value : String) : List String :=
  if key = "latest" then
    takeLast MAX_LOG_HISTORY (lines ++ [value])
  else if key = "history" then
    takeLast MAX_LOG_HISTORY
      ((py_split_backslash_n value).filterMap fun line =>
        if pyStrip line = "" then none else some (pyStrip line))
  else lines

/-- Modelled from the claim's frame-layout description (C4): the 6-byte
frame `[sequence big-endian u16, version 0x01, control byte = mode value OR
0x04 iff enabled AND not e-stopped OR 0x08 iff fms OR 0x80 iff e-stopped,
request 0x00, station code]`, with the station an explicit parameter.  Used
only to compare the source encoder against the claimed layout. -/
def spec_frame (seq : Nat) (mode : ControlMode) (enabled estop fms : Bool)
    (station : StationCode) : List Nat :=
  [(seq % 65536) / 256, (seq % 65536) % 256, 0x01,
   mode.val
     ||| (if enabled && !estop then 0x04 else 0)
     ||| (if fms then 0x08 else 0)
     ||| (if estop then 0x80 else 0),
   0x00, station.val]

/-- An event whose inbound frame (if any) either is too short to be decoded
or carries a clear e-stop echo bit (bit 0x80 of byte 3). -/
def estop_bit_clear : Event → Bool
  | .datagram _ _ data =>
      decide (data.length < 7) || decide (data.getD 3 0 &&& 0x80 = 0)
  | _ => true

/-- The robot address derived from the default team number 1234. -/
def robotAddr : String := "10.12.34.2"

/-- A healthy inbound frame: version 1, no e-stop echo, user code present,
voltage 12.0V. -/
def frame_ok : List Nat := [0, 1, 0x01, 0x00, 0x20, 12, 0]

/-- An inbound frame whose control echo carries the e-stop bit (0x80). -/
def frame_estop : List Nat := [0, 2, 0x01, 0x80, 0x20, 12, 0]

/-- The Intent of spec scenario S3 (mode = Test, enabled, e-stopped,
sequence 65535); the source state has no station field to set. -/
def s3_state : DSState :=
  { initState 1234 with
      mode := .TEST, enabled := true, emergency_stopped := true,
      sent_packets := 65535 }

/-! ## Helper lemmas -/

/-- No public command writes the observed `status.emergency_stopped` field:
that field is owned by the receive path and the watchdog. -/
theorem apply_command_status_estop (st : DSState) (c : Command) :
    (apply_command st c).status.emergency_stopped =
      st.status.emergency_stopped := by
  cases c
  case enable =>
    simp only [apply_command, enable_robot]
    split
    · rfl
    · split
      · rfl
      · split <;> rfl
  all_goals rfl

/-- Over any event sequence whose frames all carry a clear e-stop echo bit,
the observed `status.emergency_stopped` stays false. -/
theorem estopO_false_of_clear_frames (es : List Event) :
    ∀ st : DSState, st.status.emergency_stopped = false →
      (∀ e ∈ es, estop_bit_clear e = true) →
      (es.foldl step st).status.emergency_stopped = false := by
  induction es with
  | nil => intro st hst _; simpa using hst
  | cons e rest ih =>
    intro st hst hall
    have he : estop_bit_clear e = true := hall e (List.mem_cons_self e rest)
    have hrest : ∀ x ∈ rest, estop_bit_clear x = true := fun x hx =>
      hall x (List.mem_cons_of_mem e hx)
    rw [List.foldl_cons]
    refine ih (step st e) ?_ hrest
    cases e with
    | cmd c => simpa [step, apply_command_status_estop] using hst
    | timeout now =>
      simp only [step, recv_timeout]
      split
      · split
        · rfl
        · exact hst
      · exact hst
    | datagram now src data =>
      simp only [step, recv_datagram]
      split
      · simp only [process_robot_response]
        split
        · exact hst
        · simp only [estop_bit_clear, Bool.or_eq_true, decide_eq_true_eq] at he
          rcases he with hshort | hbit
          · omega
          · simp only [List.getD, List.get?_eq_getElem?] at hbit
            simp [ControlBits.EMERGENCY_STOP, List.getD,
              List.get?_eq_getElem?, hbit]
      · exact hst

/-! ## C1 -/

/-- C1 (counterexample): the claim that no reachable state reports
`enabled = true` and `emergency_stopped = true` simultaneously is false.
After a healthy frame, a successful `enable_robot()`, and a frame whose
control echo carries the e-stop bit, `get_status()` reports both flags
true: `_process_robot_response` copies the intent `_enabled` into
`status.enabled` while taking `status.emergency_stopped` from the frame. -/
theorem enabled_and_estopped_reachable :
    (get_status (run [.datagram 1 robotAddr frame_ok, .cmd .enable,
      .datagram 2 robotAddr frame_estop])).enabled = true ∧
    (get_status (run [.datagram 1 robotAddr frame_ok, .cmd .enable,
      .datagram 2 robotAddr frame_estop])).emergency_stopped = true := by
  decide

/-- C1 (amended): for every sequence of commands and received frames in
which no processed frame carries the e-stop echo bit (bit 0x80 of byte 3),
the state reported by `get_status()` satisfies
`enabled = true → emergency_stopped = false`. -/
theorem enabled_imp_not_estopped_of_clear_frames (es : List Event)
    (h : ∀ e ∈ es, estop_bit_clear e = true) :
    (get_status (run es)).enabled = true →
      (get_status (run es)).emergency_stopped = false := by
  intro _
  simpa [get_status, run] using
    estopO_false_of_clear_frames es (initState 1234) rfl h

/-- C1 witness: a concrete clear-frame trace that reaches
`enabled = true`, on which the amended invariant yields
`emergency_stopped = false`. -/
theorem enabled_imp_not_estopped_witness :
    (∀ e ∈ [Event.datagram 1 robotAddr frame_ok, Event.cmd .enable,
        Event.datagram 2 robotAddr frame_ok], estop_bit_clear e = true) ∧
    (get_status (run [.datagram 1 robotAddr frame_ok, .cmd .enable,
        .datagram 2 robotAddr frame_ok])).enabled = true ∧
    (get_status (run [.datagram 1 robotAddr frame_ok, .cmd .enable,
        .datagram 2 robotAddr frame_ok])).emergency_stopped = false :=
  ⟨by decide, by decide,
    enabled_imp_not_estopped_of_clear_frames
      [.datagram 1 robotAddr frame_ok, .cmd .enable,
        .datagram 2 robotAddr frame_ok] (by decide) (by decide)⟩

/-! ## C2 -/

/-- C2 (counterexample): the claim that `enable()` is rejected with
`EmergencyStopped` when the e-stop was set by a local `emergency_stop()`
command is false.  `enable_robot` checks the observed
`status.emergency_stopped` (the robot-echoed flag), which a local
`emergency_stop()` does not set: after a healthy frame and a local
`emergency_stop()`, the intent latch `_emergency_stopped` is true, yet
`enable_robot()` returns success and sets `_enabled = true`. -/
theorem enable_after_local_estop_succeeds :
    (run [.datagram 1 robotAddr frame_ok, .cmd .estop]).emergency_stopped
        = true ∧
    (execute_enable
        (run [.datagram 1 robotAddr frame_ok, .cmd .estop])).1.success
        = true ∧
    (execute_enable
        (run [.datagram 1 robotAddr frame_ok, .cmd .estop])).2.enabled
        = true := by
  decide

/-- C2 (amended): `enable()` sets `enabled = true` iff
`connected ∧ code_present ∧ ¬emergency_stopped` holds over the *observed*
status (the e-stop flag echoed by the robot, which a local
`emergency_stop()` command does not set); otherwise the HTTP enable action
returns exactly one typed rejection chosen by the ladder NoCommunication
(`¬connected`), NoRobotCode (`connected ∧ ¬code_present`), EmergencyStopped
(observed `emergency_stopped`), and leaves the state unchanged. -/
theorem execute_enable_ladder (st : DSState) :
    (st.status.connected = true → st.status.code_present = true →
      st.status.emergency_stopped = false →
      execute_enable st =
        ({ success := true, error := none }, { st with enabled := true })) ∧
    (st.status.connected = false →
      execute_enable st =
        ({ success := false,
           error := some "No communication with robot" }, st)) ∧
    (st.status.connected = true → st.status.code_present = false →
      execute_enable st =
        ({ success := false, error := some "Robot code not detected" }, st)) ∧
    (st.status.connected = true → st.status.code_present = true →
      st.status.emergency_stopped = true →
      execute_enable st =
        ({ success := false,
           error := some "Robot is emergency stopped" }, st)) := by
  refine ⟨?_, ?_, ?_, ?_⟩ <;> intros <;>
    simp_all [execute_enable, enable_robot, get_status]

/-- C2 witness: the ladder applied at concrete reachable states, one per
branch. -/
theorem execute_enable_ladder_witness :
    (execute_enable (run [.datagram 1 robotAddr frame_ok]) =
      ({ success := true, error := none },
        { run [.datagram 1 robotAddr frame_ok] with enabled := true })) ∧
    (execute_enable (run []) =
      ({ success := false, error := some "No communication with robot" },
        run [])) ∧
    (execute_enable (run [.datagram 1 robotAddr frame_estop]) =
      ({ success := false, error := some "Robot is emergency stopped" },
        run [.datagram 1 robotAddr frame_estop])) :=
  ⟨(execute_enable_ladder (run [.datagram 1 robotAddr frame_ok])).1
      (by decide) (by decide) (by decide),
   (execute_enable_ladder (run [])).2.1 (by decide),
   (execute_enable_ladder (run [.datagram 1 robotAddr frame_estop])).2.2.2
      (by decide) (by decide) (by decide)⟩

/-! ## C3 -/

/-- C3 (confirmed): whenever more than `WATCHDOG_TIMEOUT = 150 ms` has
elapsed since `_last_response_time` while connected, the receive-loop
timeout branch runs `_handle_communication_lost`, which forces
`connected = false`, `enabled = false` in both the intent and the observed
status, `voltage = 0`, `code_present = false`, and clears the echoed
`emergency_stopped`; the next frame built from the resulting state carries
a clear enabled bit (0x04).  The spec's 200 ms interval instantiates this
with `now - last_response_time = 0.2 > 0.15`. -/
theorem watchdog_forces_disable (st : DSState) (now : ℚ)
    (hc : st.status.connected = true)
    (ht : now - st.last_response_time > WATCHDOG_TIMEOUT) :
    (recv_timeout st now).status.connected = false ∧
    (recv_timeout st now).status.enabled = false ∧
    (recv_timeout st now).enabled = false ∧
    (recv_timeout st now).status.voltage = 0 ∧
    (recv_timeout st now).status.code_present = false ∧
    (recv_timeout st now).status.emergency_stopped = false ∧
    (build_robot_packet (recv_timeout st now)).getD 3 0 &&&
      ControlBits.ENABLED = 0 := by
  have hbit : ∀ (m : ControlMode) (f e : Bool),
      (m.val ||| (if f then ControlBits.FMS_ATTACHED else 0) |||
        (if e then ControlBits.EMERGENCY_STOP else 0)) &&&
        ControlBits.ENABLED = 0 := by
    intro m f e
    cases m <;> cases f <;> cases e <;> decide
  simp only [recv_timeout, if_pos ht, hc, if_pos]
  refine ⟨rfl, rfl, rfl, rfl, rfl, rfl, ?_⟩
  simpa [build_robot_packet, handle_communication_lost, List.getD] using
    hbit st.mode st.fms_attached st.emergency_stopped

/-- C3 witness: a robot connected by a frame at `t = 0` and a receive
timeout at `t = 0.2 s` (a 200 ms silent interval). -/
theorem watchdog_forces_disable_witness :
    (recv_timeout (run [.datagram 0 robotAddr frame_ok])
        (1/5)).status.connected = false ∧
    (recv_timeout (run [.datagram 0 robotAddr frame_ok])
        (1/5)).status.enabled = false ∧
    (recv_timeout (run [.datagram 0 robotAddr frame_ok])
        (1/5)).enabled = false ∧
    (recv_timeout (run [.datagram 0 robotAddr frame_ok])
        (1/5)).status.voltage = 0 ∧
    (recv_timeout (run [.datagram 0 robotAddr frame_ok])
        (1/5)).status.code_present = false ∧
    (recv_timeout (run [.datagram 0 robotAddr frame_ok])
        (1/5)).status.emergency_stopped = false ∧
    (build_robot_packet (recv_timeout (run [.datagram 0 robotAddr frame_ok])
        (1/5))).getD 3 0 &&& ControlBits.ENABLED = 0 := by
  refine watchdog_forces_disable (run [.datagram 0 robotAddr frame_ok])
    (1/5) (by decide) ?_
  have hlrt : (run [.datagram 0 robotAddr frame_ok]).last_response_time = 0 :=
    by decide
  rw [hlrt]
  norm_num [WATCHDOG_TIMEOUT]

/-! ## C4 -/

/-- C4 (counterexample): for the claimed Intent {mode = Test,
enabled = true, estop = true, station = Blue2} with sequence 65535, the
encoder emits `FF FF 01 81 00 00` - the station byte is hard-coded to
`StationCode.RED1 = 0x00` in `_build_robot_packet` (the engine has no
station attribute), not the claimed `04` (Blue2). -/
theorem build_packet_station_byte_cex :
    build_robot_packet s3_state = [0xFF, 0xFF, 0x01, 0x81, 0x00, 0x00] ∧
    build_robot_packet s3_state ≠ [0xFF, 0xFF, 0x01, 0x81, 0x00, 0x04] := by
  decide

/-- C4 (amended): for every state, the encoder produces exactly the claimed
6-byte frame [sequence big-endian u16, version 0x01, control byte = mode
value OR 0x04 iff enabled ∧ ¬emergency_stopped OR 0x08 iff fms_attached OR
0x80 iff emergency_stopped, request 0x00, station byte] - with the station
byte always `RED1 = 0x00`, regardless of any intended station. -/
theorem build_packet_eq_spec_frame_red1 (st : DSState) :
    build_robot_packet st =
      spec_frame st.sent_packets st.mode st.enabled st.emergency_stopped
        st.fms_attached .RED1 := by
  have hmask : st.sent_packets &&& 0xFFFF = st.sent_packets % 65536 := by
    have := Nat.and_pow_two_sub_one_eq_mod st.sent_packets 16
    norm_num at this
    exact this
  simp [build_robot_packet, spec_frame, hmask, ControlBits.ENABLED,
    ControlBits.FMS_ATTACHED, ControlBits.EMERGENCY_STOP,
    RequestCode.NORMAL, StationCode.val]

/-! ## C5 -/

/-- The sequence field of a built frame is `_sent_packets mod 2^16`. -/
theorem seq_of_build (st : DSState) :
    seq_of (build_robot_packet st) = st.sent_packets % 65536 := by
  have hmask : st.sent_packets &&& 0xFFFF = st.sent_packets % 65536 := by
    have := Nat.and_pow_two_sub_one_eq_mod st.sent_packets 16
    norm_num at this
    exact this
  simp only [seq_of, build_robot_packet, List.getD, List.get?_eq_getElem?]
  simp [hmask, Nat.div_add_mod]

/-- The sequence fields of the transmitted frames are the consecutive values
`sent_packets, sent_packets + 1, ...` modulo 2^16, regardless of which send
attempts fail (a failed `sendto` raises before the counter increment, so it
neither transmits nor increments). -/
theorem transmitted_seqs (oks : List Bool) :
    ∀ st : DSState,
      (transmitted_frames st oks).map seq_of =
        (List.range (oks.count true)).map
          (fun k => (st.sent_packets + k) % 65536) := by
  induction oks with
  | nil => intro st; rfl
  | cons ok rest ih =>
    intro st
    cases ok with
    | false =>
      simpa [transmitted_frames, List.count_cons] using ih st
    | true =>
      simp only [transmitted_frames, if_pos, List.map_cons, seq_of_build,
        List.count_cons, ih]
      simp only [beq_self_eq_true, if_true]
      rw [List.range_succ_eq_map]
      simp only [List.map_cons, List.map_map, Nat.add_zero]
      congr 1
      apply List.map_congr_left
      intro k _
      simp only [Function.comp_apply]
      congr 1
      omega

/-- C5 (confirmed): for every pair of consecutive frames actually
transmitted by the send loop, in every execution including ones where some
send attempts fail, the sequence field of the later frame equals the
sequence of the earlier frame plus 1 modulo 2^16. -/
theorem transmitted_seq_consecutive (st : DSState) (oks : List Bool)
    (i : Nat) (h : i + 1 < (transmitted_frames st oks).length) :
    seq_of ((transmitted_frames st oks).getD (i + 1) []) =
      (seq_of ((transmitted_frames st oks).getD i []) + 1) % 65536 := by
  have hmap : ∀ j : Nat,
      seq_of ((transmitted_frames st oks).getD j []) =
        ((transmitted_frames st oks).map seq_of).getD j 0 := by
    intro j
    have := List.getD_map (l := transmitted_frames st oks) ([] : List Nat)
      (f := seq_of) (n := j)
    simpa [seq_of] using this.symm
  have hlen : (transmitted_frames st oks).length = oks.count true := by
    have := congrArg List.length (transmitted_seqs oks st)
    simpa using this
  have hget : ∀ j : Nat, j < oks.count true →
      ((transmitted_frames st oks).map seq_of).getD j 0 =
        (st.sent_packets + j) % 65536 := by
    intro j hj
    rw [transmitted_seqs oks st,
      List.getD_eq_getElem _ _ (by simpa using hj)]
    simp
  rw [hmap, hmap, hget i (by omega), hget (i + 1) (by omega)]
  rw [show st.sent_packets + (i + 1) = st.sent_packets + i + 1 by omega,
    Nat.add_mod]

/-- C5 witness: a run with a failed send between two successful ones still
produces consecutive sequence numbers on the wire. -/
theorem transmitted_seq_consecutive_witness :
    0 + 1 < (transmitted_frames (initState 1234)
      [true, false, true]).length ∧
    seq_of ((transmitted_frames (initState 1234)
        [true, false, true]).getD 1 []) =
      (seq_of ((transmitted_frames (initState 1234)
        [true, false, true]).getD 0 []) + 1) % 65536 :=
  ⟨by decide,
    transmitted_seq_consecutive (initState 1234) [true, false, true] 0
      (by decide)⟩

/-! ## C6 -/

/-- `getD` below the cut of `take` agrees with `getD` on the full list. -/
theorem getD_take_of_lt (l : List Nat) (i k : Nat) (h : i < k) :
    (l.take k).getD i 0 = l.getD i 0 := by
  rcases Nat.lt_or_ge i l.length with hl | hl
  · rw [List.getD_eq_getElem _ _ (by simp; omega),
      List.getD_eq_getElem _ _ hl]
    simp [List.getElem_take]
  · rw [List.getD_eq_default _ _ (by simp; omega),
      List.getD_eq_default _ _ hl]

/-- C6 (counterexample): the claim is false in two places.  First, the
version byte is read but never checked: the 7-byte frame
`00 05 FF 00 20 0C 80` with version `0xFF` is fully processed and mutates
the Observed Status (it sets `connected = true`).  Second, the receive loop
updates `_last_response_time` for every datagram from the robot address
before any length check, so a 3-byte frame does keep the watchdog alive. -/
theorem version_unchecked_and_watchdog_fed :
    (process_robot_response (initState 1234)
        [0, 5, 0xFF, 0, 0x20, 12, 128]).status.connected = true ∧
    (initState 1234).status.connected = false ∧
    (recv_datagram (initState 1234) 5 robotAddr
        [1, 2, 3]).last_response_time = 5 ∧
    (initState 1234).last_response_time = 0 := by
  decide

/-- C6 (amended): a datagram shorter than 7 bytes is discarded by
`_process_robot_response` without mutating any state field, and extra
trailing bytes beyond offset 7 never change the decoded result (the frame
is never rejected for being long); however, the version byte is not
validated, and the receive loop sets `_last_response_time` for every
datagram whose source matches `robot_address`, including discarded short
ones. -/
theorem short_frame_discard_and_trailing_ok (st : DSState)
    (data : List Nat) (now : ℚ) (src : String) :
    (data.length < 7 → process_robot_response st data = st) ∧
    (7 ≤ data.length →
      process_robot_response st data =
        process_robot_response st (data.take 7)) ∧
    (src = st.robot_address →
      (recv_datagram st now src data).last_response_time = now) := by
  refine ⟨?_, ?_, ?_⟩
  · intro h
    simp [process_robot_response, h]
  · intro h
    have hlen : ¬(data.take 7).length < 7 := by simp; omega
    have hlen2 : ¬data.length < 7 := by omega
    simp only [process_robot_response, if_neg hlen, if_neg hlen2]
    rw [getD_take_of_lt _ 0 7 (by omega), getD_take_of_lt _ 1 7 (by omega),
      getD_take_of_lt _ 3 7 (by omega), getD_take_of_lt _ 4 7 (by omega),
      getD_take_of_lt _ 5 7 (by omega), getD_take_of_lt _ 6 7 (by omega)]
  · intro h
    simp [recv_datagram, h]

/-- C6 witness: the three amended facts at concrete inputs - a 3-byte
frame is a no-op on the state, a 9-byte frame decodes identically to its
7-byte truncation, and a matching-source datagram stamps
`_last_response_time`. -/
theorem short_frame_discard_witness :
    process_robot_response (initState 1234) [1, 2, 3] = initState 1234 ∧
    process_robot_response (initState 1234)
        [0, 5, 1, 0, 0x20, 12, 128, 77, 88] =
      process_robot_response (initState 1234)
        ([0, 5, 1, 0, 0x20, 12, 128, 77, 88].take 7) ∧
    (recv_datagram (initState 1234) 9 robotAddr
        [0, 5, 1, 0, 0x20, 12, 128]).last_response_time = 9 :=
  ⟨(short_frame_discard_and_trailing_ok (initState 1234) [1, 2, 3] 0
      "x").1 (by decide),
   (short_frame_discard_and_trailing_ok (initState 1234)
      [0, 5, 1, 0, 0x20, 12, 128, 77, 88] 0 "x").2.1 (by decide),
   (short_frame_discard_and_trailing_ok (initState 1234)
      [0, 5, 1, 0, 0x20, 12, 128] 9 robotAddr).2.2 (by decide)⟩

/-! ## C7 -/

/-- C7 (confirmed): for every inbound frame of length at least 7 with
version byte 0x01, the decoder stores sequence = bytes 0-1 big-endian in
`packet_count`, `code_present = (byte 4 AND 0x20 != 0)`, observed emergency
stop `= (byte 3 AND 0x80 != 0)`, and `voltage = byte 5 + byte 6 / 256`. -/
theorem decode_fields_correct (st : DSState) (data : List Nat)
    (h7 : 7 ≤ data.length) (_hv : data.getD 2 0 = 0x01) :
    (process_robot_response st data).status.packet_count =
      256 * data.getD 0 0 + data.getD 1 0 ∧
    (process_robot_response st data).status.code_present =
      ((data.getD 4 0 &&& 0x20) != 0) ∧
    (process_robot_response st data).status.emergency_stopped =
      ((data.getD 3 0 &&& 0x80) != 0) ∧
    (process_robot_response st data).status.voltage =
      (data.getD 5 0 : ℚ) + (data.getD 6 0 : ℚ) / 256 := by
  have hlen : ¬data.length < 7 := by omega
  simp [process_robot_response, hlen, ControlBits.EMERGENCY_STOP]

/-- C7 witness: spec scenario S4 - input `00 05 01 00 20 0C 80` decodes
to sequence 5, code present, e-stop clear, voltage 12.5 V. -/
theorem decode_fields_witness :
    (process_robot_response (initState 1234)
        [0, 5, 1, 0, 0x20, 12, 128]).status.packet_count = 5 ∧
    (process_robot_response (initState 1234)
        [0, 5, 1, 0, 0x20, 12, 128]).status.code_present = true ∧
    (process_robot_response (initState 1234)
        [0, 5, 1, 0, 0x20, 12, 128]).status.emergency_stopped = false ∧
    (process_robot_response (initState 1234)
        [0, 5, 1, 0, 0x20, 12, 128]).status.voltage = 25 / 2 := by
  have h := decode_fields_correct (initState 1234)
    [0, 5, 1, 0, 0x20, 12, 128] (by decide) (by decide)
  refine ⟨h.1, h.2.1, h.2.2.1, ?_⟩
  rw [h.2.2.2]
  norm_num

/-! ## C8 -/

/-- C8 (counterexample): `set_team_number` performs no range validation:
for the out-of-range team 10000 it returns success and updates both
`team_number` and `robot_address` (to `10.100.0.2`), instead of returning
an out-of-range rejection and leaving them unchanged. -/
theorem set_team_number_out_of_range_succeeds :
    (set_team_number (initState 1234) 10000).1 = true ∧
    (set_team_number (initState 1234) 10000).2.team_number = 10000 ∧
    (set_team_number (initState 1234) 10000).2.robot_address =
      "10.100.0.2" ∧
    (initState 1234).team_number = 1234 := by
  decide

/-- C8 (amended): `set_team_number(t)` succeeds for every `t` - including
values outside [1, 9999] - and afterwards `robot_address` is
`"10." ++ (t / 100) ++ "." ++ (t mod 100) ++ ".2"`; in particular teams
1-99 give `10.0.t.2`.  No out-of-range rejection exists. -/
theorem set_team_number_total (st : DSState) (t : Nat) :
    (set_team_number st t).1 = true ∧
    (set_team_number st t).2.team_number = t ∧
    (set_team_number st t).2.robot_address =
      "10." ++ toString (t / 100) ++ "." ++ toString (t % 100) ++ ".2" ∧
    (1 ≤ t → t ≤ 99 →
      (set_team_number st t).2.robot_address =
        "10.0." ++ toString t ++ ".2") := by
  refine ⟨rfl, rfl, rfl, ?_⟩
  intro h1 h99
  simp only [set_team_number, robotAddressFor]
  rw [Nat.div_eq_of_lt (by omega), Nat.mod_eq_of_lt (by omega)]
  rfl

/-- C8 witness: team 7 yields address `10.0.7.2`. -/
theorem set_team_number_total_witness :
    (set_team_number (initState 1234) 7).2.robot_address = "10.0.7.2" :=
  (set_team_number_total (initState 1234) 7).2.2.2 (by decide) (by decide)

/-! ## C9 -/

/-- C9 (counterexample): the claim that the tick schedule does not drift is
false.  With the initial target at 0 and a first wake at 0.025 s (a late
wake within a legitimate execution), the loop fires and sets the next
target to `0.025 + 0.02 = 0.045`, not the claimed `start + 1 * 0.02 =
0.02`: the source computes `next_send_time = current_time +
PACKET_INTERVAL` from the actual wake time. -/
theorem send_schedule_drift_cex :
    (send_loop_step 0 (1/40)).1 = true ∧
    (send_loop_step 0 (1/40)).2 = 9/200 ∧
    ((9 : ℚ)/200) ≠ 0 + 1 * PACKET_INTERVAL := by
  refine ⟨?_, ?_, ?_⟩
  · norm_num [send_loop_step]
  · norm_num [send_loop_step, PACKET_INTERVAL]
  · norm_num [PACKET_INTERVAL]

/-- C9 (amended): a send-loop iteration that wakes at or after its target
fires exactly one frame and schedules the next target at the *actual wake
time* plus 20 ms, so the next target exceeds the non-drifting target
`start + 20 ms` by exactly the wake latency (the schedule drifts; no
missed-tick counter exists in the source). -/
theorem send_schedule_drifts (start now : ℚ) (h : start ≤ now) :
    send_loop_step start now = (true, now + PACKET_INTERVAL) ∧
    (send_loop_step start now).2 - (start + PACKET_INTERVAL) =
      now - start := by
  constructor
  · simp [send_loop_step, h]
  · simp only [send_loop_step, if_pos h]
    ring

/-- C9 witness: a wake 5 ms late drifts the schedule by exactly 5 ms. -/
theorem send_schedule_drifts_witness :
    send_loop_step 0 (1/200) = (true, 1/200 + PACKET_INTERVAL) ∧
    (send_loop_step 0 (1/200)).2 - (0 + PACKET_INTERVAL) = 1/200 - 0 :=
  send_schedule_drifts 0 (1/200) (by norm_num)

/-! ## C10 -/

/-- The comprehension `[f line for line in l if f line is nonempty]` equals
filter-then-map. -/
theorem filterMap_strip_eq (l : List String) :
    (l.filterMap fun line =>
        if pyStrip line = "" then none else some (pyStrip line)) =
      (l.filter fun line => pyStrip line != "").map pyStrip := by
  induction l with
  | nil => rfl
  | cons a rest ih =>
    by_cases h : pyStrip a = "" <;>
      simp [List.filterMap_cons, List.filter_cons, h, ih]

/-- `takeLast` never returns more than `n` elements. -/
theorem takeLast_length_le {α : Type _} (n : Nat) (l : List α) :
    (takeLast n l).length ≤ n := by
  simp [takeLast]
  omega

/-- C10 (counterexample): the claim that key `"history"` splits the value
on newline characters is false.  The source splits on the two-character
literal backslash-n (`'\\n'` in the Python source): for the value
`"a\nb"` containing a real newline, the buffer becomes the single entry
`"a\nb"`, not `["a", "b"]`. -/
theorem history_literal_backslash_split :
    log_listener [] "history" "a\nb" = ["a\nb"] ∧
    log_listener [] "history" "a\nb" ≠ ["a", "b"] := by
  decide

set_option maxRecDepth 8192 in
/-- C10 (amended): in the fan-out's log listener, key `"latest"` appends
exactly one line and keeps the trailing 500 entries (a plain append when
the ring holds fewer than 500); key `"history"` replaces the ring with the
value split on the literal two-character sequence backslash-n (not on
newline characters), each piece stripped, blank pieces dropped, keeping the
trailing 500; the result never exceeds 500 entries. -/
theorem log_listener_behavior (lines : List String) (v : String) :
    log_listener lines "latest" v = takeLast 500 (lines ++ [v]) ∧
    (lines.length < 500 → log_listener lines "latest" v = lines ++ [v]) ∧
    log_listener lines "history" v =
      takeLast 500
        (((py_split_backslash_n v).filter
          fun l => pyStrip l != "").map pyStrip) ∧
    (log_listener lines "history" v).length ≤ 500 := by
  refine ⟨rfl, ?_, ?_, ?_⟩
  · intro h
    simp only [log_listener, if_pos rfl, takeLast, MAX_LOG_HISTORY]
    rw [show (lines ++ [v]).length - 500 = 0 by simp; omega]
    exact List.drop_zero _
  · simp only [log_listener, MAX_LOG_HISTORY, filterMap_strip_eq]
    rfl
  · simp only [log_listener, MAX_LOG_HISTORY]
    exact takeLast_length_le 500 _

/-- C10 witness: a fresh ring after a `"latest"` update holds exactly the
appended line, and a `"history"` update stays within the 500-entry bound. -/
theorem log_listener_behavior_witness :
    log_listener [] "latest" "boot ok" = ["boot ok"] ∧
    (log_listener [] "history" "a\\nb\\n\\n c ").length ≤ 500 :=
  ⟨(log_listener_behavior [] "boot ok").2.1 (by decide),
   (log_listener_behavior [] "a\\nb\\n\\n c ").2.2.2⟩

end WebDS
